import Mathlib

/-!
# CacheSim Pro front end: a shallow embedding of `src/frontend/script.js`

The development embeds the parts of the page script that the specification speaks about:
the address lookup of the cache visualizer (`lookupAddress`), the sample data generators
(`generateTimelineData`, `generateMissData`, `loadSampleData`), the configuration state
(`currentConfig`, `resetConfiguration`) and the simulation request (`runSimulation`).

Conventions.
* JavaScript strings are lists of characters where they are parsed or compared, and
  `String` where they are only stored and shown.
* The Number values that occur are integer valued (results of `parseInt` and `Math.floor`),
  `NaN` or an infinity; `-0` is identified with `0` (both print as `0`).
* `Math.random()` is a stream of draws `rng : Nat → ℚ`; the `n`-th call returns `rng n`.
  Doubles are written as the rationals they are, and each arithmetic operation on them is
  rounded to the nearest double (`roundDouble`).
-/

namespace CacheSim

/-! ## Numbers -/

/-- The Number values reached by `parseInt` followed by `Math.floor (· / 2^k)` and `%`. -/
inductive JSNum
  | nan
  | infinity (negative : Bool)
  | int (z : Int)
  deriving DecidableEq, Repr

/-- The magnitude of the double nearest to the natural number `n` (round to nearest, ties to
even, 53 significant bits); `none` when the result overflows to `Infinity`. -/
def roundToDouble (n : Nat) : Option Nat :=
  if n < 2 ^ 53 then some n
  else
    let e := Nat.log2 n - 52
    let q := n / 2 ^ e
    let r := n % 2 ^ e
    let half := 2 ^ (e - 1)
    let m := if half < r ∨ (r = half ∧ q % 2 = 1) then (q + 1) * 2 ^ e else q * 2 ^ e
    if m < 2 ^ 1024 then some m else none

/-- The Number for the mathematical integer `± n`. -/
def toNumber (negative : Bool) (n : Nat) : JSNum :=
  match roundToDouble n with
  | some m => JSNum.int (if negative then -(m : Int) else (m : Int))
  | none => JSNum.infinity negative

/-- The expression `Math.floor(x / d)` for a power of two `d` (the division is then exact in
double precision, so the result is the floor of the true quotient). -/
def floorDiv (x : JSNum) (d : Nat) : JSNum :=
  match x with
  | JSNum.nan => JSNum.nan
  | JSNum.infinity s => JSNum.infinity s
  | JSNum.int z => JSNum.int (Int.fdiv z (d : Int))

/-- The expression `x % d`: the remainder takes the sign of the dividend, and is `NaN` for a
dividend that is `NaN` or infinite. -/
def remainder (x : JSNum) (d : Nat) : JSNum :=
  match x with
  | JSNum.nan => JSNum.nan
  | JSNum.infinity _ => JSNum.nan
  | JSNum.int z => JSNum.int (Int.tmod z (d : Int))

/-- The double nearest to the rational `q` (ties to even; 53 significant bits, fewer below
`2^-1022`), for magnitudes that do not overflow: the result of an arithmetic operation whose
exact value is `q`. -/
def roundDouble (q : ℚ) : ℚ :=
  if q = 0 then 0
  else
    let e := max (Int.log 2 |q|) (-1022)
    let ulp : ℚ := 2 ^ (e - 52)
    let n := |q| / ulp
    let f := ⌊n⌋
    let m := if n - f < 1 / 2 then f else if 1 / 2 < n - f then f + 1
      else if f % 2 = 0 then f else f + 1
    (if q < 0 then -1 else 1) * m * ulp

/-- The character of one hexadecimal digit, lowercase as printed by `toString(16)`. -/
def hexDigitChar (d : Nat) : Char :=
  if d < 10 then Char.ofNat (48 + d) else Char.ofNat (87 + d)

/-- Digits of `n` in radix 16, most significant first, pushed in front of `acc`. -/
def toHexAux : Nat → Nat → List Char → List Char
  | 0, _, acc => acc
  | fuel + 1, n, acc =>
    if n < 16 then hexDigitChar n :: acc
    else toHexAux fuel (n / 16) (hexDigitChar (n % 16) :: acc)

/-- The text of `n.toString(16)` for a natural number `n`. -/
def toHex (n : Nat) : List Char := toHexAux (n + 1) n []

/-- The text of `x.toString(16)`. -/
def numberToString16 (x : JSNum) : List Char :=
  match x with
  | JSNum.nan => ['N', 'a', 'N']
  | JSNum.infinity false => ['I', 'n', 'f', 'i', 'n', 'i', 't', 'y']
  | JSNum.infinity true => ['-', 'I', 'n', 'f', 'i', 'n', 'i', 't', 'y']
  | JSNum.int z => if z < 0 then '-' :: toHex z.natAbs else toHex z.natAbs

/-! ## parseInt -/

/-- The white space and line terminator characters that `parseInt` skips at the start. -/
def whiteSpaceChars : List Char :=
  [Char.ofNat 0x09, Char.ofNat 0x0A, Char.ofNat 0x0B, Char.ofNat 0x0C, Char.ofNat 0x0D,
   Char.ofNat 0x20, Char.ofNat 0xA0, Char.ofNat 0x1680, Char.ofNat 0x2000, Char.ofNat 0x2001,
   Char.ofNat 0x2002, Char.ofNat 0x2003, Char.ofNat 0x2004, Char.ofNat 0x2005,
   Char.ofNat 0x2006, Char.ofNat 0x2007, Char.ofNat 0x2008, Char.ofNat 0x2009,
   Char.ofNat 0x200A, Char.ofNat 0x2028, Char.ofNat 0x2029, Char.ofNat 0x202F,
   Char.ofNat 0x205F, Char.ofNat 0x3000, Char.ofNat 0xFEFF]

/-- Whether `c` is skipped by `parseInt` at the start of its input. -/
def isWhiteSpace (c : Char) : Bool := decide (c ∈ whiteSpaceChars)

/-- The value of `c` as a digit in some radix up to 36, letters in either case. -/
def digitValue (c : Char) : Option Nat :=
  if 48 ≤ c.toNat ∧ c.toNat ≤ 57 then some (c.toNat - 48)
  else if 97 ≤ c.toNat ∧ c.toNat ≤ 122 then some (c.toNat - 87)
  else if 65 ≤ c.toNat ∧ c.toNat ≤ 90 then some (c.toNat - 55)
  else none

/-- The values of the longest run of radix-`R` digits at the start of the input. -/
def takeDigits (R : Nat) : List Char → List Nat
  | [] => []
  | c :: cs =>
    match digitValue c with
    | some d => if d < R then d :: takeDigits R cs else []
    | none => []

/-- The integer written by the digits `ds` in radix `R`. -/
def digitsValue (R : Nat) (ds : List Nat) : Nat :=
  ds.foldl (fun acc d => acc * R + d) 0

/-- The input without one leading sign character. -/
def dropSign : List Char → List Char
  | [] => []
  | c :: t => if c = '+' ∨ c = '-' then t else c :: t

/-- Whether the input starts with `0x` or `0X`. -/
def hasHexMarker : List Char → Bool
  | c :: d :: _ => decide (c = '0' ∧ (d = 'x' ∨ d = 'X'))
  | _ => false

/-- The function `parseInt(string, radix)`; `radix = 0` stands for an absent radix.  Leading
white space is skipped, one sign is read, `0x` is skipped for radix 16 or an absent radix
(which then becomes 16, and otherwise 10), and the longest run of digits is converted; no
digit at all gives `NaN`. -/
def parseInt (string : List Char) (radix : Nat) : JSNum :=
  let s := string.dropWhile isWhiteSpace
  let negative := decide (s.head? = some '-')
  let s := dropSign s
  if radix ≠ 0 ∧ (radix < 2 ∨ 36 < radix) then JSNum.nan
  else
    let marker := decide (radix = 0 ∨ radix = 16) && hasHexMarker s
    let R := if marker then 16 else if radix = 0 then 10 else radix
    let s := if marker then s.drop 2 else s
    let ds := takeDigits R s
    if ds = [] then JSNum.nan else toNumber negative (digitsValue R ds)

/-! ## The cache visualizer -/

/-- One `.cache-line` element of the grid: its `data-set`, `data-way` and `data-tag`
attributes, its `valid` class, the age shown, and its `highlighted` class. -/
structure CacheLine where
  set : Nat
  way : Nat
  valid : Bool
  tag : List Char
  age : Nat
  highlighted : Bool
  deriving DecidableEq, Repr

/-- The text of the `.tag` child of a line: only a valid line has one, and it shows the tag. -/
def tagText (l : CacheLine) : Option (List Char) :=
  if l.valid then some l.tag else none

/-- The content of the `lookupText` element: what the page held before, or the message
`Address maps to Set <set> with tag <tag> - Found in cache!` (`found`) or
`... - Not found in cache (miss)`. -/
inductive LookupText
  | other (text : String)
  | mapsTo (set : JSNum) (tag : List Char) (found : Bool)
  deriving DecidableEq, Repr

/-- The part of the document that `lookupAddress` reads and writes. -/
structure Page where
  addressInput : List Char
  lines : List CacheLine
  lookupDisplay : String
  lookupClass : String
  lookupText : LookupText
  deriving DecidableEq, Repr

/-- The draw `rng n` scaled by `k` and floored, as in `Math.floor(Math.random() * k)`. -/
def randomBelow (rng : Nat → ℚ) (n k : Nat) : Nat := (⌊roundDouble (rng n * k)⌋).toNat

/-- The literal `0.3`: the double `5404319552844595 / 2^54`. -/
def threeTenths : ℚ := 5404319552844595 / 18014398509481984

/-- The line built for `set` and `way` by `initializeCacheVisualizer`; it takes the three
draws `valid`, `tag`, `age` in this order, starting at draw `3 * (4 * set + way)`. -/
def initialLine (rng : Nat → ℚ) (set way : Nat) : CacheLine :=
  let n := 3 * (4 * set + way)
  CacheLine.mk set way (decide (threeTenths < rng n))
    ('0' :: 'x' :: toHex (randomBelow rng (n + 1) 1000)) (randomBelow rng (n + 2) 100) false

/-- The grid built by `initializeCacheVisualizer`: 8 sets of 4 ways, in document order. -/
def initializeCacheVisualizer (rng : Nat → ℚ) : List CacheLine :=
  (List.range 8).flatMap (fun set => (List.range 4).map (fun way => initialLine rng set way))

/-- The set shown by `lookupAddress` for an input: `Math.floor(parseInt(address, 16) / 32) % 8`. -/
def lookupSet (address : List Char) : JSNum :=
  remainder (floorDiv (parseInt address 16) 32) 8

/-- The tag shown by `lookupAddress` for an input:
`0x` followed by `Math.floor(parseInt(address, 16) / (32 * 8)).toString(16)`. -/
def lookupTag (address : List Char) : List Char :=
  '0' :: 'x' :: numberToString16 (floorDiv (parseInt address 16) (32 * 8))

/-- The function `lookupAddress`: an empty input hides the result panel; otherwise every
line loses its highlight, every line whose tag text equals the computed tag is highlighted,
and the panel shows the set, the tag and whether some line matched. -/
def lookupAddress (p : Page) : Page :=
  if p.addressInput = [] then
    Page.mk p.addressInput p.lines "none" p.lookupClass p.lookupText
  else
    let set := lookupSet p.addressInput
    let tag := lookupTag p.addressInput
    let cleared := p.lines.map (fun l => CacheLine.mk l.set l.way l.valid l.tag l.age false)
    let found := cleared.any (fun l => decide (tagText l = some tag))
    let marked := cleared.map (fun l =>
      if tagText l = some tag then CacheLine.mk l.set l.way l.valid l.tag l.age true else l)
    Page.mk p.addressInput marked "block"
      (if found then "alert alert-success" else "alert alert-warning")
      (LookupText.mapsTo set tag found)

/-! ## The address decoder of the specification -/

/-- The fields of a decoded address. -/
structure Decoded where
  tag : Nat
  setIndex : Nat
  offset : Nat
  deriving DecidableEq, Repr

/-- The decoder as the specification words it: `offset = address mod blockSizeBytes`,
`setIndex = (address / blockSizeBytes) mod numSets`,
`tag = address / (blockSizeBytes × numSets)`. -/
def decode (address blockSizeBytes numSets : Nat) : Decoded :=
  Decoded.mk (address / (blockSizeBytes * numSets)) ((address / blockSizeBytes) % numSets)
    (address % blockSizeBytes)

/-- The characters `0`..`9`, `a`..`f`. -/
def lowerHexChars : List Char :=
  ['0', '1', '2', '3', '4', '5', '6', '7', '8', '9', 'a', 'b', 'c', 'd', 'e', 'f']

/-- The characters a hexadecimal numeral may use: `0`..`9`, `a`..`f`, `A`..`F`. -/
def hexChars : List Char := lowerHexChars ++ ['A', 'B', 'C', 'D', 'E', 'F']

/-- The value of a hexadecimal digit character: its position among `0`..`9`, `a`..`f`, and
the capitals `A`..`F` count as `a`..`f`. -/
def hexDigitValue (c : Char) : Nat :=
  if hexChars.indexOf c < 16 then hexChars.indexOf c else hexChars.indexOf c - 6

/-- A hexadecimal numeral: a non-empty string of the characters `0`-`9`, `a`-`f`, `A`-`F`. -/
def IsHexString (s : List Char) : Prop :=
  s ≠ [] ∧ ∀ c ∈ s, c ∈ hexChars

instance : DecidablePred IsHexString := fun s => by
  unfold IsHexString
  infer_instance

/-- The natural number a hexadecimal numeral denotes. -/
def hexValue (s : List Char) : Nat :=
  s.foldl (fun acc c => acc * 16 + hexDigitValue c) 0



/-! ## parseFloat -/

/-- The values of `parseFloat`: `NaN`, an infinity, or a finite value.  A finite value is
written as the exact rational that the decimal text denotes; the Number is the double
nearest to it. -/
inductive JSFloat
  | nan
  | infinity (negative : Bool)
  | finite (q : ℚ)
  deriving DecidableEq, Repr

/-- The exponent part of a decimal literal: `e` or `E`, an optional sign and at least one
digit; anything else is not part of the literal and counts as exponent 0. -/
def parseExponent : List Char → Int
  | [] => 0
  | c :: t =>
    if c = 'e' ∨ c = 'E' then
      let ds := takeDigits 10 (dropSign t)
      if ds = [] then 0
      else if t.head? = some '-' then -(digitsValue 10 ds : Int) else (digitsValue 10 ds : Int)
    else 0

/-- The function `parseFloat(string)`: leading white space is skipped, one sign is read, and
the longest decimal literal (`Infinity`, or digits with an optional fraction and exponent)
is converted; no literal at all gives `NaN`.  A value of at least `2^1024 - 2^970` rounds
to an infinity, and a value of at most `2^-1075` rounds to zero. -/
def parseFloat (string : List Char) : JSFloat :=
  let s := string.dropWhile isWhiteSpace
  let negative := decide (s.head? = some '-')
  let s := dropSign s
  if ['I', 'n', 'f', 'i', 'n', 'i', 't', 'y'].isPrefixOf s then JSFloat.infinity negative
  else
    let ip := takeDigits 10 s
    let rest := s.drop ip.length
    let fp := if rest.head? = some '.' then takeDigits 10 (rest.drop 1) else []
    let rest := if rest.head? = some '.' then rest.drop (1 + fp.length) else rest
    if ip = [] ∧ fp = [] then JSFloat.nan
    else
      let mantissa : ℚ := (digitsValue 10 ip : ℚ) + (digitsValue 10 fp : ℚ) / 10 ^ fp.length
      let value := mantissa * 10 ^ parseExponent rest
      if 2 ^ 1024 - 2 ^ 970 ≤ value then JSFloat.infinity negative
      else if value ≤ 1 / 2 ^ 1075 then JSFloat.finite 0
      else JSFloat.finite (if negative then -value else value)

/-! ## Results and sample data -/

/-- One entry of `timelineData`; the rates are doubles. -/
structure Sample where
  time : Nat
  hitRate : ℚ
  missRate : ℚ
  deriving DecidableEq, Repr

/-- The object `missClassification`. -/
structure MissData where
  compulsory : Int
  capacity : Int
  conflict : Int
  deriving DecidableEq, Repr

/-- A results object as `updateResults` reads it: eight texts, the timeline (absent when the
object has no `timelineData`) and the miss classification (absent when it has none). -/
structure Results where
  hitRate : String
  missRate : String
  amat : String
  memoryTraffic : String
  hitRateChange : String
  missRateChange : String
  amatChange : String
  trafficChange : String
  timelineData : Option (List Sample)
  missClassification : Option MissData
  deriving DecidableEq, Repr

/-- The argument of `updateResults`: the parsed response body may be `null`. -/
inductive Body
  | null
  | object (r : Results)
  deriving DecidableEq, Repr

/-- The loop of `generateTimelineData`: `k` iterations are left, the counter is `i`, and each
iteration pushes one sample, drawing its hit rate and then its miss rate. -/
def timelineLoop (rng : Nat → ℚ) (n : Nat) : Nat → Nat → List Sample → List Sample
  | 0, _, data => data
  | k + 1, i, data =>
    timelineLoop rng n k (i + 1)
      (data ++ [Sample.mk (i * 100) (roundDouble (90 + roundDouble (rng (n + 2 * i) * 8)))
        (roundDouble (10 - roundDouble (rng (n + 2 * i + 1) * 8)))])

/-- The function `generateTimelineData`, when `n` draws have been taken before. -/
def generateTimelineData (rng : Nat → ℚ) (n : Nat) : List Sample :=
  timelineLoop rng n 20 0 []

/-- The function `generateMissData`, when `n` draws have been taken before. -/
def generateMissData (rng : Nat → ℚ) (n : Nat) : MissData :=
  MissData.mk ⌊roundDouble (100 + roundDouble (rng n * 50))⌋
    ⌊roundDouble (200 + roundDouble (rng (n + 1) * 100))⌋
    ⌊roundDouble (150 + roundDouble (rng (n + 2) * 100))⌋

/-- The object `sampleResults` built by `loadSampleData` and by the fallback of
`runSimulation` (the two literals are the same), when `n` draws have been taken before. -/
def sampleResults (rng : Nat → ℚ) (n : Nat) : Results :=
  Results.mk "94.2%" "5.8%" "2.4 cycles" "1,234 blocks" "+2.3%" "-1.2%" "-0.3" "+124"
    (some (generateTimelineData rng n)) (some (generateMissData rng (n + 40)))

/-! ## Configuration -/

/-- The object `currentConfig`, and the object `config` built by `runSimulation`. -/
structure Config where
  cacheSize : JSNum
  blockSize : JSNum
  associativity : JSNum
  writePolicy : String
  replacementPolicy : String
  benchmark : String
  enableAdaptive : Bool
  matrixSize : JSNum
  deriving DecidableEq, Repr

/-- The initial value of `currentConfig`. -/
def initialConfig : Config :=
  Config.mk (JSNum.int 16384) (JSNum.int 32) (JSNum.int 2) "WRITE_BACK" "LRU"
    "matrix_multiplication" false (JSNum.int 32)

/-- The configuration inputs of the page: the `value` of each control (`checked` for the
check box) and the text next to the cache size slider. -/
structure Form where
  cacheSize : List Char
  cacheSizeValue : String
  blockSize : List Char
  associativity : List Char
  writePolicy : String
  replacementPolicy : String
  benchmark : String
  enableAdaptive : Bool
  matrixSize : List Char
  deriving DecidableEq, Repr

/-- The text of a Number in radix 10 (integers below `10^21` in magnitude, which print
without an exponent). -/
def numberToString (x : JSNum) : List Char :=
  match x with
  | JSNum.nan => ['N', 'a', 'N']
  | JSNum.infinity false => ['I', 'n', 'f', 'i', 'n', 'i', 't', 'y']
  | JSNum.infinity true => ['-', 'I', 'n', 'f', 'i', 'n', 'i', 't', 'y']
  | JSNum.int z => (toString z).data

/-- A number inside a JSON text: `JSON.stringify` writes a finite Number as a number, and
`NaN` and the infinities as `null`. -/
inductive JsonNumber
  | null
  | number (z : Int)
  deriving DecidableEq, Repr

/-- The JSON form of a Number, as `JSON.stringify` writes it. -/
def stringifyNumber (x : JSNum) : JsonNumber :=
  match x with
  | JSNum.nan => JsonNumber.null
  | JSNum.infinity _ => JsonNumber.null
  | JSNum.int z => JsonNumber.number z

/-- The body of the simulation request, the text `JSON.stringify(config)`, as the JSON object
it denotes. -/
structure RequestBody where
  cacheSize : JsonNumber
  blockSize : JsonNumber
  associativity : JsonNumber
  writePolicy : String
  replacementPolicy : String
  benchmark : String
  enableAdaptive : Bool
  matrixSize : JsonNumber
  deriving DecidableEq, Repr

/-- The expression `JSON.stringify(config)`. -/
def stringifyConfig (c : Config) : RequestBody :=
  RequestBody.mk (stringifyNumber c.cacheSize) (stringifyNumber c.blockSize)
    (stringifyNumber c.associativity) c.writePolicy c.replacementPolicy c.benchmark
    c.enableAdaptive (stringifyNumber c.matrixSize)

/-! ## The application state -/

/-- An exception value; only its `message` is used. -/
structure JSError where
  message : String
  deriving DecidableEq, Repr

/-- What the script does to the outside, in order: requests sent with `fetch`, with their
body, calls of `updateResults` with their argument, and toasts shown with their message and
type. -/
inductive Event
  | request (body : RequestBody)
  | updateResults (results : Body)
  | toast (message : String) (type : String)
  deriving DecidableEq, Repr

/-- The three charts; each is absent until created, and holds the data last given to it. -/
structure Charts where
  performance : Option (List ℚ × List ℚ)
  hitMiss : Option (List JSFloat)
  miss : Option (List Int)
  deriving DecidableEq, Repr

/-- The texts of the results dashboard. -/
structure Shown where
  hitRateValue : String
  missRateValue : String
  amatValue : String
  trafficValue : String
  hitRateChange : String
  missRateChange : String
  amatChange : String
  trafficChange : String
  hitCountLabel : String
  missCountLabel : String
  deriving DecidableEq, Repr

/-- The state of the page outside the cache visualizer. -/
structure App where
  currentConfig : Config
  form : Form
  charts : Charts
  shown : Shown
  spinnerDisplay : String
  dashboardOpacity : String
  runDisabled : Bool
  runLabel : String
  drawn : Nat
  log : List Event
  deriving DecidableEq, Repr

/-- The TypeError of reading a property of `null`; the message text is the engine's. -/
def typeErrorNull : JSError :=
  JSError.mk "Cannot read properties of null (reading \x27hitRate\x27)"

/-- The TypeError of calling `map` on an absent timeline; the message text is the engine's. -/
def typeErrorNoTimeline : JSError :=
  JSError.mk "Cannot read properties of undefined (reading \x27map\x27)"

/-- The function `showToast`, as far as the outside sees it: one toast is shown. -/
def showToast (message type : String) (a : App) : App :=
  { a with log := a.log ++ [Event.toast message type] }

/-- The function `updateCharts`.  The performance chart, when present, maps over
`results.timelineData`, which throws when the timeline is absent; the pie chart, when
present, takes the parsed hit and miss rates and the two labels are rewritten; the miss
chart is updated when it is present and the results carry a miss classification. -/
def updateCharts (r : Results) (a : App) : App × Option JSError :=
  match a.charts.performance, r.timelineData with
  | some _, none =>
    (a, some typeErrorNoTimeline)
  | perf, timeline =>
    let performance :=
      match perf, timeline with
      | some _, some t => some (t.map Sample.hitRate, t.map Sample.missRate)
      | p, _ => p
    let pie := a.charts.hitMiss.isSome
    let hitMiss :=
      if pie then some [parseFloat r.hitRate.data, parseFloat r.missRate.data]
      else a.charts.hitMiss
    let shown :=
      if pie then
        { a.shown with
          hitCountLabel := "Hits: " ++ r.hitRate, missCountLabel := "Misses: " ++ r.missRate }
      else a.shown
    let miss :=
      match a.charts.miss, r.missClassification with
      | some _, some m => some [m.compulsory, m.capacity, m.conflict]
      | c, _ => c
    ({ a with charts := Charts.mk performance hitMiss miss, shown := shown }, none)

/-- The function `updateResults`: a `null` argument throws at the first property read;
otherwise the eight texts are written and the charts are updated. -/
def updateResults (results : Body) (a : App) : App × Option JSError :=
  let a := { a with log := a.log ++ [Event.updateResults results] }
  match results with
  | Body.null =>
    (a, some typeErrorNull)
  | Body.object r =>
    updateCharts r
      { a with shown :=
          { a.shown with
            hitRateValue := r.hitRate, missRateValue := r.missRate, amatValue := r.amat,
            trafficValue := r.memoryTraffic, hitRateChange := r.hitRateChange,
            missRateChange := r.missRateChange, amatChange := r.amatChange,
            trafficChange := r.trafficChange } }

/-- The function `loadSampleData`. -/
def loadSampleData (rng : Nat → ℚ) (a : App) : App × Option JSError :=
  updateResults (Body.object (sampleResults rng a.drawn)) { a with drawn := a.drawn + 43 }

/-- The function `resetConfiguration`. -/
def resetConfiguration (a : App) : App :=
  let c := Config.mk (JSNum.int 16384) (JSNum.int 32) (JSNum.int 2) "WRITE_BACK" "LRU"
    "matrix_multiplication" false (JSNum.int 32)
  showToast "Configuration reset to defaults" "info"
    { a with
      currentConfig := c,
      form := Form.mk (numberToString c.cacheSize) "16 KB" (numberToString c.blockSize)
        (numberToString c.associativity) c.writePolicy c.replacementPolicy c.benchmark
        c.enableAdaptive (numberToString c.matrixSize) }

/-! ## The simulation request -/

/-- How `response.json()` ends: it rejects, or yields the parsed body. -/
inductive JsonOutcome
  | rejected (error : JSError)
  | resolved (body : Body)
  deriving DecidableEq, Repr

/-- How `fetch` ends: it rejects, or yields a response with its `ok` flag, its status and
the outcome of reading its body. -/
inductive FetchOutcome
  | rejected (error : JSError)
  | response (ok : Bool) (status : Nat) (json : JsonOutcome)
  deriving DecidableEq, Repr

/-- The object `config` that `runSimulation` builds from the inputs; an empty matrix size
input is read as `32`. -/
def readConfig (f : Form) : Config :=
  Config.mk (parseInt f.cacheSize 0) (parseInt f.blockSize 0) (parseInt f.associativity 0)
    f.writePolicy f.replacementPolicy f.benchmark f.enableAdaptive
    (parseInt (if f.matrixSize = [] then numberToString (JSNum.int 32) else f.matrixSize) 0)

/-- The `try` block of `runSimulation`: the state it leaves and the exception thrown, if
any.  The request is sent with the body `JSON.stringify(config)`. -/
def tryBlock (net : FetchOutcome) (a : App) : App × Option JSError :=
  let a := { a with log := a.log ++ [Event.request (stringifyConfig (readConfig a.form))] }
  match net with
  | FetchOutcome.rejected e => (a, some e)
  | FetchOutcome.response ok status json =>
    if !ok then (a, some (JSError.mk ("HTTP error! status: " ++ toString status)))
    else
      match json with
      | JsonOutcome.rejected e => (a, some e)
      | JsonOutcome.resolved body =>
        match updateResults body a with
        | (a, some e) => (a, some e)
        | (a, none) => (showToast "Simulation completed successfully!" "success" a, none)

/-- The `catch` block of `runSimulation` for the exception `e`. -/
def catchBlock (rng : Nat → ℚ) (e : JSError) (a : App) : App × Option JSError :=
  let a := showToast ("Simulation failed: " ++ e.message) "error" a
  match updateResults (Body.object (sampleResults rng a.drawn)) { a with drawn := a.drawn + 43 } with
  | (a, some e) => (a, some e)
  | (a, none) => (showToast "Using sample data (backend not connected)" "warning" a, none)

/-- The `finally` block of `runSimulation`. -/
def finallyBlock (a : App) : App :=
  { a with
    spinnerDisplay := "none", dashboardOpacity := "1", runDisabled := false,
    runLabel := "<i class=\"fas fa-play me-2\"></i>Run Simulation" }

/-- The function `runSimulation` for a given outcome of the request: the state when it
completes, and the exception it rejects with, if any. -/
def runSimulation (net : FetchOutcome) (rng : Nat → ℚ) (a : App) : App × Option JSError :=
  let a :=
    { a with
      spinnerDisplay := "block", dashboardOpacity := "0.5", runDisabled := true,
      runLabel := "<i class=\"fas fa-spinner fa-spin me-2\"></i>Running..." }
  match tryBlock net a with
  | (a, none) => (finallyBlock a, none)
  | (a, some e) =>
    match catchBlock rng e a with
    | (a, escaped) => (finallyBlock a, escaped)

/-! ## The configuration invariant of the specification -/

/-- A power of two. -/
def IsPowerOfTwo (n : Nat) : Prop := ∃ k, n = 2 ^ k

/-- The invariant of the specification for a configuration and a number of sets:
`cacheSizeBytes = blockSizeBytes × associativity × numSets`, with `numSets` and
`blockSizeBytes` powers of two. -/
def ConfigInvariant (c : Config) (numSets : Nat) : Prop :=
  ∃ cacheSize blockSize associativity : Nat,
    c.cacheSize = JSNum.int cacheSize ∧ c.blockSize = JSNum.int blockSize ∧
    c.associativity = JSNum.int associativity ∧
    cacheSize = blockSize * associativity * numSets ∧
    IsPowerOfTwo numSets ∧ IsPowerOfTwo blockSize

/-! ## Vocabulary for the statements -/

/-- The events a run of `runSimulation` adds to the log of the state it starts from. -/
def runEvents (net : FetchOutcome) (rng : Nat → ℚ) (a : App) : List Event :=
  (runSimulation net rng a).1.log.drop a.log.length

/-- The request did not bring a response to read: `fetch` rejected, or the response has
`ok = false`. -/
def fetchFailed : FetchOutcome → Bool
  | FetchOutcome.rejected _ => true
  | FetchOutcome.response ok _ _ => !ok

/-- The body of a response could not be used: reading it rejects, it is `null`, or it has
no timeline while the performance chart exists. -/
def bodyUnusable (charts : Charts) : JsonOutcome → Bool
  | JsonOutcome.rejected _ => true
  | JsonOutcome.resolved Body.null => true
  | JsonOutcome.resolved (Body.object r) => charts.performance.isSome && r.timelineData.isNone

/-- The request failed: `fetch` rejected, the response is not ok, or its body could not be
used. -/
def requestFailed (charts : Charts) : FetchOutcome → Bool
  | FetchOutcome.rejected _ => true
  | FetchOutcome.response ok _ json => !ok || bodyUnusable charts json

/-- What the dashboard and the charts show once the result `r` has been displayed in full on
a page whose charts and labels were those of `a`: the eight texts are those of `r`; each
chart that exists holds the data of `r` (the timeline rates, the parsed hit and miss rates,
the three miss counts), and the two labels under the pie chart are rewritten when that chart
exists. -/
def displayOf (r : Results) (a : App) : Shown × Charts :=
  (Shown.mk r.hitRate r.missRate r.amat r.memoryTraffic r.hitRateChange r.missRateChange
      r.amatChange r.trafficChange
      (if a.charts.hitMiss = none then a.shown.hitCountLabel else "Hits: " ++ r.hitRate)
      (if a.charts.hitMiss = none then a.shown.missCountLabel else "Misses: " ++ r.missRate),
    Charts.mk
      (a.charts.performance.map (fun old =>
        (r.timelineData.map (fun t => (t.map Sample.hitRate, t.map Sample.missRate))).getD old))
      (a.charts.hitMiss.map (fun _ => [parseFloat r.hitRate.data, parseFloat r.missRate.data]))
      (a.charts.miss.map (fun old =>
        (r.missClassification.map (fun m => [m.compulsory, m.capacity, m.conflict])).getD old)))

/-- The warning toast of the fallback. -/
def sampleWarning : Event :=
  Event.toast "Using sample data (backend not connected)" "warning"

/-- Whether an event is a request. -/
def Event.isRequest : Event → Bool
  | Event.request _ => true
  | _ => false

/-- Whether an event is a call of `updateResults`. -/
def Event.isUpdate : Event → Bool
  | Event.updateResults _ => true
  | _ => false

/-- The average memory access time of the specification:
`hitTimeCycles + missRate × missPenaltyCycles`. -/
def amat (hitTimeCycles missRate missPenaltyCycles : ℚ) : ℚ :=
  hitTimeCycles + missRate * missPenaltyCycles

/-- A displayed result satisfies the AMAT equation with the defaults 1 and 100: its `amat`
text reads as `1 + missRate × 100`, the miss rate text being a percentage. -/
def SatisfiesAmat (r : Results) : Prop :=
  ∃ m t : ℚ, parseFloat r.missRate.data = JSFloat.finite m ∧
    parseFloat r.amat.data = JSFloat.finite t ∧ t = amat 1 (m / 100) 100

/-- A page state used in examples: nothing shown yet, all charts created, the inputs at
their defaults. -/
def exampleApp : App :=
  App.mk initialConfig
    (Form.mk ['1', '6', '3', '8', '4'] "16 KB" ['3', '2'] ['2'] "WRITE_BACK" "LRU"
      "matrix_multiplication" false ['3', '2'])
    (Charts.mk (some ([], [])) (some []) (some []))
    (Shown.mk "" "" "" "" "" "" "" "" "" "")
    "none" "1" false "" 0 []

/-- A stream of draws: `0` for the first twelve (the four lines of set 0), `1/2` after. -/
def stuckDraws (n : Nat) : ℚ := if n < 12 then 0 else 1 / 2

/-- A stream of draws alternating between `0` and `1/2`. -/
def alternatingDraws (n : Nat) : ℚ := if n % 2 = 0 then 0 else 1 / 2

/-- The numeral `2000000000001f`, which denotes `2^53 + 31`: the last byte of its 32-byte
block, and not a double. -/
def edgeAddress : List Char :=
  ['2', '0', '0', '0', '0', '0', '0', '0', '0', '0', '0', '0', '1', 'f']

/-- The numeral `20000000000020`, which denotes `2^53 + 32`: the first byte of the next
block. -/
def nextBlockAddress : List Char :=
  ['2', '0', '0', '0', '0', '0', '0', '0', '0', '0', '0', '0', '2', '0']

/-! ## Facts about hexadecimal text -/

theorem hexChars_facts : ∀ c ∈ hexChars,
    digitValue c = some (hexDigitValue c) ∧ hexDigitValue c < 16 ∧ isWhiteSpace c = false ∧
      c ≠ '+' ∧ c ≠ '-' ∧ c ≠ 'x' ∧ c ≠ 'X' := by
  decide

theorem hexDigitChar_facts : ∀ d ∈ List.range 16,
    hexDigitChar d ∈ lowerHexChars ∧ hexDigitValue (hexDigitChar d) = d := by
  decide

theorem toHexAux_mem (P : Char → Prop) (hP : ∀ d, d < 16 → P (hexDigitChar d)) :
    ∀ (fuel n : Nat) (acc : List Char), (∀ c ∈ acc, P c) → ∀ c ∈ toHexAux fuel n acc, P c := by
  intro fuel
  induction fuel with
  | zero => intro n acc h; simpa [toHexAux] using h
  | succ k ih =>
    intro n acc h
    unfold toHexAux
    split
    · rename_i hn
      intro c hc
      rcases List.mem_cons.mp hc with rfl | hc
      · exact hP n hn
      · exact h c hc
    · apply ih
      intro c hc
      rcases List.mem_cons.mp hc with rfl | hc
      · exact hP _ (Nat.mod_lt _ (by decide))
      · exact h c hc

theorem toHexAux_value : ∀ (fuel n : Nat) (acc : List Char), n < fuel →
    hexValue (toHexAux fuel n acc) =
      acc.foldl (fun a c => a * 16 + hexDigitValue c) n := by
  intro fuel
  induction fuel with
  | zero => intro n acc h; omega
  | succ k ih =>
    intro n acc h
    unfold toHexAux
    split
    · rename_i hn
      have := (hexDigitChar_facts n (List.mem_range.mpr hn)).2
      simp [hexValue, this]
    · rename_i hn
      have hlt : n / 16 < k := by omega
      have hd := (hexDigitChar_facts (n % 16) (List.mem_range.mpr (Nat.mod_lt _ (by decide)))).2
      rw [ih _ _ hlt]
      simp only [List.foldl_cons, hd]
      congr 1
      omega

theorem toHexAux_ne_nil (fuel n : Nat) (acc : List Char) :
    toHexAux (fuel + 1) n acc ≠ [] := by
  induction fuel generalizing n acc with
  | zero => unfold toHexAux; split <;> simp [toHexAux]
  | succ k ih =>
    unfold toHexAux
    split
    · simp
    · exact ih _ _

theorem toHex_value (n : Nat) : hexValue (toHex n) = n := by
  simp [toHex, toHexAux_value]

theorem toHex_lower (n : Nat) : ∀ c ∈ toHex n, c ∈ lowerHexChars :=
  toHexAux_mem (fun c => c ∈ lowerHexChars)
    (fun d hd => (hexDigitChar_facts d (List.mem_range.mpr hd)).1) _ _ _ (by simp)

theorem toHex_isHexString (n : Nat) : IsHexString (toHex n) :=
  ⟨toHexAux_ne_nil _ _ _, fun c hc => List.mem_append_left _ (toHex_lower n c hc)⟩

theorem takeDigits_hex : ∀ s : List Char, (∀ c ∈ s, c ∈ hexChars) →
    takeDigits 16 s = s.map hexDigitValue := by
  intro s
  induction s with
  | nil => intro _; rfl
  | cons c t ih =>
    intro h
    have hc := hexChars_facts c (h c (List.mem_cons_self _ _))
    simp [takeDigits, hc.1, hc.2.1, ih (fun d hd => h d (List.mem_cons_of_mem _ hd))]

theorem digitsValue_hex (s : List Char) : digitsValue 16 (s.map hexDigitValue) = hexValue s := by
  simp [digitsValue, hexValue, List.foldl_map]

theorem parseInt_hexString (s : List Char) (hs : IsHexString s) :
    parseInt s 16 = toNumber false (hexValue s) := by
  obtain ⟨hne, hall⟩ := hs
  cases s with
  | nil => exact absurd rfl hne
  | cons c t =>
    have hc := hexChars_facts c (hall c (List.mem_cons_self _ _))
    obtain ⟨_, _, hw, hplus, hminus, _, _⟩ := hc
    have hmarker : hasHexMarker (c :: t) = false := by
      cases t with
      | nil => rfl
      | cons d u =>
        have hd := hexChars_facts d (hall d (by simp))
        simp [hasHexMarker, hd.2.2.2.2.2.1, hd.2.2.2.2.2.2]
    have htake := takeDigits_hex (c :: t) hall
    simp [parseInt, List.dropWhile, hw, dropSign, hplus, hminus, hmarker, htake, Ne.symm hminus]
    rw [← List.map_cons, digitsValue_hex]

theorem toNumber_small (n : Nat) (h : n < 2 ^ 53) : toNumber false n = JSNum.int n := by
  unfold toNumber roundToDouble
  rw [if_pos h]
  rfl

theorem floorDiv_nat (n d : Nat) : floorDiv (JSNum.int n) d = JSNum.int ((n / d : Nat) : Int) := by
  simp only [floorDiv]
  rw [Int.fdiv_eq_ediv _ (Int.ofNat_nonneg d)]
  norm_cast

theorem remainder_nat (n d : Nat) : remainder (JSNum.int n) d = JSNum.int ((n % d : Nat) : Int) := by
  simp only [remainder]
  congr 1

theorem numberToString16_nat (n : Nat) : numberToString16 (JSNum.int n) = toHex n := by
  simp [numberToString16]

theorem lookupSet_hexString (s : List Char) (hs : IsHexString s) (h : hexValue s < 2 ^ 53) :
    lookupSet s = JSNum.int ((hexValue s / 32 % 8 : Nat) : Int) := by
  rw [lookupSet, parseInt_hexString s hs, toNumber_small _ h, floorDiv_nat, remainder_nat]

theorem lookupTag_hexString (s : List Char) (hs : IsHexString s) (h : hexValue s < 2 ^ 53) :
    lookupTag s = '0' :: 'x' :: toHex (hexValue s / (32 * 8)) := by
  rw [lookupTag, parseInt_hexString s hs, toNumber_small _ h, floorDiv_nat,
    numberToString16_nat]

theorem lookupAddress_text (p : Page) (h : p.addressInput ≠ []) :
    (lookupAddress p).lookupText = LookupText.mapsTo (lookupSet p.addressInput)
      (lookupTag p.addressInput)
      ((p.lines.map (fun l => CacheLine.mk l.set l.way l.valid l.tag l.age false)).any
        (fun l => decide (tagText l = some (lookupTag p.addressInput)))) := by
  simp [lookupAddress, h]

/-- C1: for a hexadecimal numeral denoting `a < 2^53`, `lookupAddress` shows the set
`(a / 32) mod 8` and the tag `a / (32 * 8)` (floor division), which are the `setIndex` and
`tag` of `decode a 32 8`; the tag text is `0x` followed by lowercase hexadecimal digits that
denote the tag. -/
theorem lookupAddress_decodes (p : Page) (a : Nat) (ha : a < 2 ^ 53)
    (hs : IsHexString p.addressInput) (hv : hexValue p.addressInput = a) :
    (∃ found, (lookupAddress p).lookupText =
      LookupText.mapsTo (JSNum.int ((decode a 32 8).setIndex : Nat))
        ('0' :: 'x' :: toHex (decode a 32 8).tag) found) ∧
    (decode a 32 8).setIndex = a / 32 % 8 ∧ (decode a 32 8).tag = a / (32 * 8) ∧
    (∀ c ∈ toHex (a / (32 * 8)), c ∈ lowerHexChars) ∧
    hexValue (toHex (a / (32 * 8))) = a / (32 * 8) := by
  subst hv
  refine ⟨?_, rfl, rfl, toHex_lower _, toHex_value _⟩
  rw [lookupAddress_text p hs.1, lookupSet_hexString _ hs ha, lookupTag_hexString _ hs ha]
  exact ⟨_, rfl⟩

theorem lookupAddress_decodes_witness :
    (∃ found, (lookupAddress (Page.mk ['1', 'f', '4', '2', '0'] [] "none" "" (LookupText.other ""))).lookupText =
      LookupText.mapsTo (JSNum.int ((decode 128032 32 8).setIndex : Nat))
        ('0' :: 'x' :: toHex (decode 128032 32 8).tag) found) ∧
    (decode 128032 32 8).setIndex = 128032 / 32 % 8 ∧ (decode 128032 32 8).tag = 128032 / (32 * 8) ∧
    (∀ c ∈ toHex (128032 / (32 * 8)), c ∈ lowerHexChars) ∧
    hexValue (toHex (128032 / (32 * 8))) = 128032 / (32 * 8) :=
  lookupAddress_decodes (Page.mk ['1', 'f', '4', '2', '0'] [] "none" "" (LookupText.other ""))
    128032 (by decide) (by decide) (by decide)

/-! ## Address lookup on arbitrary input -/

/-- C2 (counterexample): the inputs `zz` and `-20` denote no non-negative integer, yet
`lookupAddress` raises no error for them: it shows the result panel with a set and tag
mapping (`NaN` and `0xNaN`, respectively `-1` and `0x-1`). -/
theorem lookupAddress_maps_invalid_input :
    ¬ IsHexString ['z', 'z'] ∧ ¬ IsHexString ['-', '2', '0'] ∧
    lookupAddress (Page.mk ['z', 'z'] [] "none" "" (LookupText.other "")) =
      Page.mk ['z', 'z'] [] "block" "alert alert-warning"
        (LookupText.mapsTo JSNum.nan ['0', 'x', 'N', 'a', 'N'] false) ∧
    lookupAddress (Page.mk ['-', '2', '0'] [] "none" "" (LookupText.other "")) =
      Page.mk ['-', '2', '0'] [] "block" "alert alert-warning"
        (LookupText.mapsTo (JSNum.int (-1)) ['0', 'x', '-', '1'] false) := by
  decide

/-- C2 (amended): `lookupAddress` has no invalid-address failure.  For every non-empty
input it shows the result panel with the message for the set
`Math.floor(parseInt(input, 16) / 32) % 8` and the tag
`0x` + `Math.floor(parseInt(input, 16) / 256).toString(16)`; when `parseInt` yields `NaN`
these are `NaN` and `0xNaN`. -/
theorem lookupAddress_shows_mapping (p : Page) (h : p.addressInput ≠ []) :
    (lookupAddress p).lookupDisplay = "block" ∧
    (∃ found, (lookupAddress p).lookupText =
        LookupText.mapsTo (lookupSet p.addressInput) (lookupTag p.addressInput) found ∧
      (lookupAddress p).lookupClass =
        if found then "alert alert-success" else "alert alert-warning") ∧
    (parseInt p.addressInput 16 = JSNum.nan →
      lookupSet p.addressInput = JSNum.nan ∧
      lookupTag p.addressInput = ['0', 'x', 'N', 'a', 'N']) := by
  refine ⟨by simp [lookupAddress, h], ⟨_, lookupAddress_text p h, by simp [lookupAddress, h]⟩, ?_⟩
  intro hnan
  simp [lookupSet, lookupTag, hnan, floorDiv, remainder, numberToString16]

theorem lookupAddress_shows_mapping_witness :
    (lookupAddress (Page.mk ['z', 'z'] [] "none" "" (LookupText.other ""))).lookupDisplay
      = "block" ∧
    (∃ found, (lookupAddress (Page.mk ['z', 'z'] [] "none" "" (LookupText.other ""))).lookupText =
        LookupText.mapsTo (lookupSet ['z', 'z']) (lookupTag ['z', 'z']) found ∧
      (lookupAddress (Page.mk ['z', 'z'] [] "none" "" (LookupText.other ""))).lookupClass =
        if found then "alert alert-success" else "alert alert-warning") ∧
    (parseInt ['z', 'z'] 16 = JSNum.nan →
      lookupSet ['z', 'z'] = JSNum.nan ∧ lookupTag ['z', 'z'] = ['0', 'x', 'N', 'a', 'N']) :=
  lookupAddress_shows_mapping (Page.mk ['z', 'z'] [] "none" "" (LookupText.other ""))
    (by decide)

/-! ## Lookup across sets -/

theorem roundDouble_zero : roundDouble 0 = 0 := by
  simp [roundDouble]

theorem roundDouble_natCast (k : Nat) (h : k < 2 ^ 53) : roundDouble (k : ℚ) = k := by
  rcases Nat.eq_zero_or_pos k with rfl | hk
  · simp [roundDouble]
  have hk0 : (k : ℚ) ≠ 0 := Nat.cast_ne_zero.mpr (by omega)
  have hl : Nat.log 2 k ≤ 52 := by
    have := Nat.log_lt_of_lt_pow (by omega) h
    omega
  have hlog : Int.log 2 (k : ℚ) = (Nat.log 2 k : ℤ) := Int.log_natCast 2 k
  have habs : |(k : ℚ)| = k := abs_of_nonneg (Nat.cast_nonneg k)
  have hulp : (2 : ℚ) ^ ((Nat.log 2 k : ℤ) - 52) * 2 ^ (52 - Nat.log 2 k) = 1 := by
    rw [← zpow_natCast, ← zpow_add₀ (by norm_num : (2 : ℚ) ≠ 0), Nat.cast_sub hl]
    simp
  have hpos : (0 : ℚ) < 2 ^ ((Nat.log 2 k : ℤ) - 52) := zpow_pos (by norm_num) _
  have hn : (k : ℚ) / 2 ^ ((Nat.log 2 k : ℤ) - 52) =
      (((k * 2 ^ (52 - Nat.log 2 k) : ℕ) : ℤ) : ℚ) := by
    rw [div_eq_iff hpos.ne']
    push_cast
    rw [mul_assoc, mul_comm ((2 : ℚ) ^ (52 - Nat.log 2 k)), hulp, mul_one]
  have hneg : ¬ (k : ℚ) < 0 := not_lt.mpr (Nat.cast_nonneg k)
  unfold roundDouble
  rw [if_neg hk0]
  simp only [habs, hlog]
  rw [max_eq_left (by omega), hn, Int.floor_intCast, sub_self, if_neg hneg,
    if_pos (by norm_num : (0 : ℚ) < 1 / 2), one_mul, ← hn, div_mul_cancel₀ _ hpos.ne']

theorem roundDouble_ofNat (k : Nat) (q : ℚ) (hq : q = (k : ℚ)) (h : k < 2 ^ 53) :
    roundDouble q = k := by
  rw [hq, roundDouble_natCast k h]

theorem initialLine_stuck_low (set way : Nat) (h : 3 * (4 * set + way) < 12) :
    initialLine stuckDraws set way = CacheLine.mk set way false ['0', 'x', '0'] 0 false := by
  have h1 : 3 * (4 * set + way) + 1 < 12 := by omega
  have h2 : 3 * (4 * set + way) + 2 < 12 := by omega
  simp [initialLine, randomBelow, stuckDraws, h, h1, h2, roundDouble_zero, threeTenths]
  exact ⟨by norm_num, by decide⟩

theorem initialLine_stuck_high (set way : Nat) (h : ¬ 3 * (4 * set + way) < 12) :
    initialLine stuckDraws set way =
      CacheLine.mk set way true ['0', 'x', '1', 'f', '4'] 50 false := by
  have h1 : ¬ 3 * (4 * set + way) + 1 < 12 := by omega
  have h2 : ¬ 3 * (4 * set + way) + 2 < 12 := by omega
  have h500 : roundDouble (2⁻¹ * 1000) = 500 :=
    roundDouble_ofNat 500 _ (by norm_num) (by norm_num)
  have h50 : roundDouble (2⁻¹ * 100) = 50 :=
    roundDouble_ofNat 50 _ (by norm_num) (by norm_num)
  simp [initialLine, randomBelow, stuckDraws, h, h1, h2, h500, h50, threeTenths]
  norm_num
  decide

theorem grid_stuck : initializeCacheVisualizer stuckDraws =
    (List.range 8).flatMap (fun set => (List.range 4).map (fun way =>
      if set = 0 then CacheLine.mk set way false ['0', 'x', '0'] 0 false
      else CacheLine.mk set way true ['0', 'x', '1', 'f', '4'] 50 false)) := by
  unfold initializeCacheVisualizer
  congr 1
  funext set
  apply List.map_congr_left
  intro way hw
  have := List.mem_range.mp hw
  split
  · rename_i h; subst h; exact initialLine_stuck_low _ _ (by omega)
  · exact initialLine_stuck_high _ _ (by omega)

/-- C3 (the code at the failing input): on the grid built from the draws `stuckDraws`, no
line of set 0 shows the tag `0x1f4`, the address `1f400` maps to set 0 with tag `0x1f4`, and
`lookupAddress` still reports it as found, because lines of the other sets show that tag. -/
theorem lookupAddress_hit_in_other_set :
    (∀ l ∈ initializeCacheVisualizer stuckDraws,
      l.set = 0 → tagText l ≠ some ['0', 'x', '1', 'f', '4']) ∧
    (∃ l ∈ initializeCacheVisualizer stuckDraws,
      l.set = 1 ∧ tagText l = some ['0', 'x', '1', 'f', '4']) ∧
    (lookupAddress (Page.mk ['1', 'f', '4', '0', '0'] (initializeCacheVisualizer stuckDraws)
      "none" "" (LookupText.other ""))).lookupText =
        LookupText.mapsTo (JSNum.int 0) ['0', 'x', '1', 'f', '4'] true := by
  rw [grid_stuck]
  decide

/-! ## The simulation request -/

theorem updateResults_sample (rng : Nat → ℚ) (n : Nat) (a : App) :
    ∃ b, updateResults (Body.object (sampleResults rng n)) a = (b, none) ∧
      b.log = a.log ++ [Event.updateResults (Body.object (sampleResults rng n))] ∧
      b.shown.amatValue = "2.4 cycles" ∧ b.shown.missRateValue = "5.8%" := by
  obtain ⟨cfg, form, ⟨perf, pie, miss⟩, shown, sp, op, dis, lab, drawn, log⟩ := a
  cases perf <;> cases pie <;> simp [updateResults, updateCharts, sampleResults]

theorem catchBlock_log (rng : Nat → ℚ) (e : JSError) (a : App) :
    ∃ b, catchBlock rng e a = (b, none) ∧
      b.log = a.log ++ [Event.toast ("Simulation failed: " ++ e.message) "error",
        Event.updateResults (Body.object (sampleResults rng a.drawn)), sampleWarning] := by
  obtain ⟨b, hb, hlog, _⟩ := updateResults_sample rng a.drawn
    { showToast ("Simulation failed: " ++ e.message) "error" a with drawn := a.drawn + 43 }
  refine ⟨showToast "Using sample data (backend not connected)" "warning" b, ?_, ?_⟩
  · simp only [catchBlock]
    have : (showToast ("Simulation failed: " ++ e.message) "error" a).drawn = a.drawn := rfl
    rw [this, hb]
  · simp [showToast, hlog, sampleWarning]

theorem runSimulation_of_throw (net : FetchOutcome) (rng : Nat → ℚ) (a b : App) (e : JSError)
    (pre : List Event)
    (h : tryBlock net { a with
      spinnerDisplay := "block", dashboardOpacity := "0.5", runDisabled := true,
      runLabel := "<i class=\"fas fa-spinner fa-spin me-2\"></i>Running..." } = (b, some e))
    (hlog : b.log = a.log ++ pre) (hdrawn : b.drawn = a.drawn) :
    runEvents net rng a = pre ++ [Event.toast ("Simulation failed: " ++ e.message) "error",
        Event.updateResults (Body.object (sampleResults rng a.drawn)), sampleWarning] := by
  obtain ⟨c, hc, hclog⟩ := catchBlock_log rng e b
  simp only [runEvents, runSimulation, h, hc, finallyBlock, hclog, hlog, hdrawn]
  simp

theorem runSimulation_of_success (net : FetchOutcome) (rng : Nat → ℚ) (a b : App)
    (pre : List Event)
    (h : tryBlock net { a with
      spinnerDisplay := "block", dashboardOpacity := "0.5", runDisabled := true,
      runLabel := "<i class=\"fas fa-spinner fa-spin me-2\"></i>Running..." } = (b, none))
    (hlog : b.log = a.log ++ pre) :
    runEvents net rng a = pre := by
  simp only [runEvents, runSimulation, h, finallyBlock, hlog]
  simp

/-- The events of a run, by the outcome of the request. -/
theorem runEvents_cases (net : FetchOutcome) (rng : Nat → ℚ) (a : App) :
    (requestFailed a.charts net = true ∧ ∃ pre msg, runEvents net rng a =
      Event.request (stringifyConfig (readConfig a.form)) :: pre ++
        [Event.toast ("Simulation failed: " ++ msg) "error",
          Event.updateResults (Body.object (sampleResults rng a.drawn)), sampleWarning] ∧
      (fetchFailed net = true → pre = []) ∧
      (pre = [] ∨ ∃ status body,
        net = FetchOutcome.response true status (JsonOutcome.resolved body) ∧
        pre = [Event.updateResults body])) ∨
    (requestFailed a.charts net = false ∧ ∃ status body,
      net = FetchOutcome.response true status (JsonOutcome.resolved body) ∧
      runEvents net rng a = [Event.request (stringifyConfig (readConfig a.form)), Event.updateResults body,
        Event.toast "Simulation completed successfully!" "success"]) := by
  obtain ⟨cfg, form, ⟨perf, pie, miss⟩, shown, sp, op, dis, lab, drawn, log⟩ := a
  cases net with
  | rejected e =>
    refine Or.inl ⟨rfl, [], e.message, ?_, fun _ => rfl, Or.inl rfl⟩
    exact runSimulation_of_throw _ rng _ _ e [_] rfl rfl rfl
  | response ok status json =>
    cases ok with
    | false =>
      refine Or.inl ⟨rfl, [], "HTTP error! status: " ++ toString status, ?_, fun _ => rfl,
        Or.inl rfl⟩
      exact runSimulation_of_throw _ rng _ _ (JSError.mk _) [_] rfl rfl rfl
    | true =>
      cases json with
      | rejected e =>
        refine Or.inl ⟨rfl, [], e.message, ?_, fun h => rfl, Or.inl rfl⟩
        exact runSimulation_of_throw _ rng _ _ e [_] rfl rfl rfl
      | resolved body =>
        cases body with
        | null =>
          refine Or.inl ⟨rfl, [Event.updateResults Body.null], typeErrorNull.message, ?_,
            fun h => ?_, Or.inr ⟨status, _, rfl, rfl⟩⟩
          · exact runSimulation_of_throw _ rng _ _ typeErrorNull [_, _] rfl (by simp) rfl
          · simp [fetchFailed] at h
        | object r =>
          obtain ⟨hr, mr, am, mt, hc, mc, ac, tc, timeline, mcl⟩ := r
          cases perf with
          | none =>
            refine Or.inr ⟨by simp [requestFailed, bodyUnusable], status, _, rfl, ?_⟩
            apply runSimulation_of_success _ rng _ _ [_, _, _]
            · simp [tryBlock, updateResults, updateCharts]
              rfl
            · simp [showToast]
          | some pd =>
            cases timeline with
            | none =>
              refine Or.inl ⟨rfl, [Event.updateResults (Body.object
                (Results.mk hr mr am mt hc mc ac tc none mcl))], typeErrorNoTimeline.message, ?_,
                fun h => ?_, Or.inr ⟨status, _, rfl, rfl⟩⟩
              · exact runSimulation_of_throw _ rng _ _ typeErrorNoTimeline [_, _] rfl (by simp) rfl
              · simp [fetchFailed] at h
            | some t =>
              refine Or.inr ⟨by simp [requestFailed, bodyUnusable], status, _, rfl, ?_⟩
              apply runSimulation_of_success _ rng _ _ [_, _, _]
              · simp [tryBlock, updateResults, updateCharts]
                rfl
              · simp [showToast]

theorem runEvents_head (net : FetchOutcome) (rng : Nat → ℚ) (a : App) :
    ∃ rest, runEvents net rng a = Event.request (stringifyConfig (readConfig a.form)) :: rest := by
  rcases runEvents_cases net rng a with ⟨_, pre, msg, hev, _⟩ | ⟨_, status, body, _, hev⟩
  · exact ⟨_, hev⟩
  · exact ⟨_, hev⟩

/-- What is on display when a run completes: the sample result after a failed request, the
response body after a successful one. -/
theorem runSimulation_display (net : FetchOutcome) (rng : Nat → ℚ) (a : App) :
    (requestFailed a.charts net = true →
      ((runSimulation net rng a).1.shown, (runSimulation net rng a).1.charts) =
        displayOf (sampleResults rng a.drawn) a) ∧
    (∀ status r, net = FetchOutcome.response true status (JsonOutcome.resolved (Body.object r)) →
      requestFailed a.charts net = false →
      ((runSimulation net rng a).1.shown, (runSimulation net rng a).1.charts) =
        displayOf r a) := by
  obtain ⟨cfg, form, ⟨perf, pie, miss⟩, shown, sp, op, dis, lab, drawn, log⟩ := a
  constructor
  · intro hf
    cases net with
    | rejected e => cases perf <;> cases pie <;> cases miss <;> rfl
    | response ok status json =>
      cases ok with
      | false => cases perf <;> cases pie <;> cases miss <;> rfl
      | true =>
        cases json with
        | rejected e => cases perf <;> cases pie <;> cases miss <;> rfl
        | resolved body =>
          cases body with
          | null => cases perf <;> cases pie <;> cases miss <;> rfl
          | object r =>
            obtain ⟨hr, mr, am, mt, hc, mc, ac, tc, timeline, mcl⟩ := r
            cases perf with
            | none => simp [requestFailed, bodyUnusable] at hf
            | some pd =>
              cases timeline with
              | none => cases pie <;> cases miss <;> rfl
              | some t => simp [requestFailed, bodyUnusable] at hf
  · intro status r hnet hf
    subst hnet
    obtain ⟨hr, mr, am, mt, hc, mc, ac, tc, timeline, mcl⟩ := r
    cases perf with
    | none => cases pie <;> cases miss <;> cases timeline <;> cases mcl <;> rfl
    | some pd =>
      cases timeline with
      | none => simp [requestFailed, bodyUnusable] at hf
      | some t => cases pie <;> cases miss <;> cases mcl <;> rfl

/-- C4: a run of `runSimulation` goes one of two ways.  If the request failed (`fetch`
rejected, the response was not ok, or its body could not be used), the run ends with the
failure toast, the display of the sample result and, directly after it, the warning toast
`Using sample data (backend not connected)`; before these the response body was passed to
`updateResults` at most once, and when the run completes the dashboard and the charts show
the sample result.  If the request did not fail, the run consists of the request, the
display of the response body and the success toast, and the dashboard and the charts show
the response body.  So the warning toast is issued if and only if the request failed, and
the sample result is passed to `updateResults` if and only if the request failed or the
sample result is itself the body of the response; and the run ends with the display of the
sample result followed by the warning toast if and only if the request failed. -/
theorem runSimulation_sample_iff_failed (net : FetchOutcome) (rng : Nat → ℚ) (a : App) :
    ((requestFailed a.charts net = true ∧
        (∃ pre msg, runEvents net rng a =
          Event.request (stringifyConfig (readConfig a.form)) :: pre ++
            [Event.toast ("Simulation failed: " ++ msg) "error",
              Event.updateResults (Body.object (sampleResults rng a.drawn)), sampleWarning] ∧
          (pre = [] ∨ ∃ status body,
            net = FetchOutcome.response true status (JsonOutcome.resolved body) ∧
            pre = [Event.updateResults body])) ∧
        ((runSimulation net rng a).1.shown, (runSimulation net rng a).1.charts) =
          displayOf (sampleResults rng a.drawn) a) ∨
      (requestFailed a.charts net = false ∧
        ∃ status r,
          net = FetchOutcome.response true status (JsonOutcome.resolved (Body.object r)) ∧
          runEvents net rng a =
            [Event.request (stringifyConfig (readConfig a.form)),
              Event.updateResults (Body.object r),
              Event.toast "Simulation completed successfully!" "success"] ∧
          ((runSimulation net rng a).1.shown, (runSimulation net rng a).1.charts) =
            displayOf r a)) ∧
    (sampleWarning ∈ runEvents net rng a ↔ requestFailed a.charts net = true) ∧
    (Event.updateResults (Body.object (sampleResults rng a.drawn)) ∈ runEvents net rng a ↔
      (requestFailed a.charts net = true ∨ ∃ status,
        net = FetchOutcome.response true status
          (JsonOutcome.resolved (Body.object (sampleResults rng a.drawn))))) ∧
    ((∃ pre, runEvents net rng a =
        pre ++ [Event.updateResults (Body.object (sampleResults rng a.drawn)), sampleWarning]) ↔
      requestFailed a.charts net = true) := by
  have hd := runSimulation_display net rng a
  rcases runEvents_cases net rng a with
    ⟨hf, pre, msg, hev, _, hpre⟩ | ⟨hf, status, body, hnet, hev⟩
  · refine ⟨Or.inl ⟨hf, ⟨pre, msg, hev, hpre⟩, hd.1 hf⟩, ⟨fun _ => hf, fun _ => ?_⟩,
      ⟨fun _ => Or.inl hf, fun _ => ?_⟩,
      ⟨fun _ => hf, fun _ => ⟨Event.request (stringifyConfig (readConfig a.form)) :: pre ++
        [Event.toast ("Simulation failed: " ++ msg) "error"], ?_⟩⟩⟩
    · rw [hev]; simp
    · rw [hev]; simp
    · rw [hev]; simp
  · have hbody : ∃ r, body = Body.object r := by
      subst hnet
      cases body with
      | null => simp [requestFailed, bodyUnusable] at hf
      | object r => exact ⟨r, rfl⟩
    obtain ⟨r, rfl⟩ := hbody
    refine ⟨Or.inr ⟨hf, status, r, hnet, hev, hd.2 status r hnet hf⟩, ?_, ?_, ?_⟩
    · rw [hev, hf]
      constructor
      · intro h
        simp [sampleWarning] at h
      · intro h; cases h
    · rw [hev, hf]
      constructor
      · intro h
        right
        refine ⟨status, ?_⟩
        simp at h
        rw [hnet, h]
      · rintro (h | ⟨st, h⟩)
        · cases h
        · rw [hnet] at h
          injection h with _ _ h3
          injection h3 with h4
          rw [h4]
          simp
    · rw [hev, hf]
      constructor
      · rintro ⟨pre, hpre⟩
        have h := congrArg List.getLast? hpre
        simp [sampleWarning] at h
      · intro h; cases h

/-- C5: when `fetch` rejects or the response has `ok = false`, the run sends exactly one
request, calls `updateResults` exactly once, with the sample result, and does not depend on
the body of the response: its events are the request, the failure toast, the display of the
sample result and the warning toast. -/
theorem runSimulation_failed_fetch (net : FetchOutcome) (rng : Nat → ℚ) (a : App)
    (h : fetchFailed net = true) :
    (∃ msg, runEvents net rng a =
      [Event.request (stringifyConfig (readConfig a.form)),
        Event.toast ("Simulation failed: " ++ msg) "error",
        Event.updateResults (Body.object (sampleResults rng a.drawn)), sampleWarning]) ∧
    ((runEvents net rng a).filter Event.isRequest).length = 1 ∧
    (runEvents net rng a).filter Event.isUpdate =
      [Event.updateResults (Body.object (sampleResults rng a.drawn))] ∧
    (∀ status json other, net = FetchOutcome.response false status json →
      runSimulation (FetchOutcome.response false status other) rng a =
        runSimulation net rng a) := by
  rcases runEvents_cases net rng a with
    ⟨_, pre, msg, hev, hpre, _⟩ | ⟨_, status, body, hnet, _⟩
  · have hnil := hpre h
    subst hnil
    refine ⟨⟨msg, hev⟩, ?_, ?_, ?_⟩
    · rw [hev]; rfl
    · rw [hev]; rfl
    · intro status json other hnet
      subst hnet
      rfl
  · subst hnet
    simp [fetchFailed] at h

theorem runSimulation_failed_fetch_witness :
    fetchFailed (FetchOutcome.rejected (JSError.mk "Failed to fetch")) = true ∧
    ((∃ msg, runEvents (FetchOutcome.rejected (JSError.mk "Failed to fetch")) (fun _ => 0)
        exampleApp =
      [Event.request (stringifyConfig (readConfig exampleApp.form)),
        Event.toast ("Simulation failed: " ++ msg) "error",
        Event.updateResults (Body.object (sampleResults (fun _ => 0) exampleApp.drawn)),
        sampleWarning]) ∧
    ((runEvents (FetchOutcome.rejected (JSError.mk "Failed to fetch")) (fun _ => 0)
      exampleApp).filter Event.isRequest).length = 1 ∧
    (runEvents (FetchOutcome.rejected (JSError.mk "Failed to fetch")) (fun _ => 0)
      exampleApp).filter Event.isUpdate =
      [Event.updateResults (Body.object (sampleResults (fun _ => 0) exampleApp.drawn))] ∧
    (∀ status json other,
      FetchOutcome.rejected (JSError.mk "Failed to fetch") =
        FetchOutcome.response false status json →
      runSimulation (FetchOutcome.response false status other) (fun _ => 0) exampleApp =
        runSimulation (FetchOutcome.rejected (JSError.mk "Failed to fetch")) (fun _ => 0)
          exampleApp)) :=
  ⟨rfl, runSimulation_failed_fetch (FetchOutcome.rejected (JSError.mk "Failed to fetch"))
    (fun _ => 0) exampleApp rfl⟩

/-! ## The request and the configuration inputs -/

/-- C6 (counterexample): with an empty matrix size input, `parseInt` of the input is `NaN`,
but the request that `runSimulation` sends carries the matrix size 32. -/
theorem runSimulation_defaults_empty_matrixSize :
    parseInt [] 0 = JSNum.nan ∧
    ∃ rest, runEvents (FetchOutcome.rejected (JSError.mk "Failed to fetch")) (fun _ => 0)
      { exampleApp with form := { exampleApp.form with matrixSize := [] } } =
      Event.request (RequestBody.mk (JsonNumber.number 16384) (JsonNumber.number 32)
        (JsonNumber.number 2) "WRITE_BACK" "LRU" "matrix_multiplication" false
        (JsonNumber.number 32)) :: rest := by
  refine ⟨by decide, ?_⟩
  obtain ⟨rest, h⟩ := runEvents_head (FetchOutcome.rejected (JSError.mk "Failed to fetch"))
    (fun _ => 0) { exampleApp with form := { exampleApp.form with matrixSize := [] } }
  refine ⟨rest, ?_⟩
  rw [h]
  congr 1

/-- C6 (amended): for every state of the configuration inputs, the first thing
`runSimulation` does to the outside is to send the request with the body
`JSON.stringify(config)`.  Its `cacheSize`, `blockSize` and `associativity` are the JSON form
of `parseInt` of their inputs: the parsed number when it is finite, and `null` when it is
`NaN` (as for an empty input) or infinite.  Its `matrixSize` is the JSON form of `parseInt`
of its input when that is not empty, and 32 when it is empty.  The other fields are the
values of their controls. -/
theorem runSimulation_request_fields (net : FetchOutcome) (rng : Nat → ℚ) (a : App) :
    ∃ body rest, runEvents net rng a = Event.request body :: rest ∧
      body.cacheSize = stringifyNumber (parseInt a.form.cacheSize 0) ∧
      body.blockSize = stringifyNumber (parseInt a.form.blockSize 0) ∧
      body.associativity = stringifyNumber (parseInt a.form.associativity 0) ∧
      body.matrixSize =
        (if a.form.matrixSize = [] then JsonNumber.number 32
          else stringifyNumber (parseInt a.form.matrixSize 0)) ∧
      body.writePolicy = a.form.writePolicy ∧
      body.replacementPolicy = a.form.replacementPolicy ∧
      body.benchmark = a.form.benchmark ∧
      body.enableAdaptive = a.form.enableAdaptive ∧
      stringifyNumber (parseInt [] 0) = JsonNumber.null ∧
      (∀ x, stringifyNumber x = JsonNumber.null ↔ ∀ z, x ≠ JSNum.int z) := by
  obtain ⟨rest, h⟩ := runEvents_head net rng a
  refine ⟨_, rest, h, rfl, rfl, rfl, ?_, rfl, rfl, rfl, rfl, by decide, ?_⟩
  · simp only [stringifyConfig, readConfig]
    split
    · decide
    · rfl
  · intro x
    cases x <;> simp [stringifyNumber]

/-! ## Sample data -/

theorem parseFloat_sample_missRate : parseFloat "5.8%".data = JSFloat.finite (29 / 5) := by
  have h1 : takeDigits 10 ['5', '.', '8', '%'] = [5] := by decide
  have h2 : takeDigits 10 ['8', '%'] = [8] := by decide
  have h3 : isWhiteSpace '5' = false := by decide
  simp [parseFloat, List.dropWhile, h1, h2, h3, dropSign, parseExponent, digitsValue]
  norm_num

theorem parseFloat_sample_amat : parseFloat "2.4 cycles".data = JSFloat.finite (12 / 5) := by
  have h1 : takeDigits 10 ['2', '.', '4', ' ', 'c', 'y', 'c', 'l', 'e', 's'] = [2] := by decide
  have h2 : takeDigits 10 ['4', ' ', 'c', 'y', 'c', 'l', 'e', 's'] = [4] := by decide
  have h3 : isWhiteSpace '2' = false := by decide
  simp [parseFloat, List.dropWhile, h1, h2, h3, dropSign, parseExponent, digitsValue]
  norm_num

theorem sampleResults_not_satisfiesAmat (rng : Nat → ℚ) (n : Nat) :
    ¬ SatisfiesAmat (sampleResults rng n) := by
  rintro ⟨m, t, hm, ht, h⟩
  have hm2 : parseFloat "5.8%".data = JSFloat.finite m := hm
  have ht2 : parseFloat "2.4 cycles".data = JSFloat.finite t := ht
  rw [parseFloat_sample_missRate] at hm2
  rw [parseFloat_sample_amat] at ht2
  injection hm2 with hm3
  injection ht2 with ht3
  subst hm3
  subst ht3
  norm_num [amat] at h

/-- C7 (counterexample): the sample result does not satisfy
`AMAT = 1 + missRate × 100`: its miss rate reads as 5.8 percent and its AMAT as 2.4, while
`1 + 0.058 × 100 = 6.8`. -/
theorem sampleResults_amat_differs :
    ¬ SatisfiesAmat (sampleResults (fun _ => 0) 0) ∧
    amat 1 ((29 / 5) / 100) 100 = 34 / 5 :=
  ⟨sampleResults_not_satisfiesAmat _ _, by norm_num [amat]⟩

/-- C7 (amended): the program computes no AMAT.  `updateResults` shows the `amat` and
`missRate` texts of the result it is given unchanged; the sample result of `loadSampleData`
and of the fallback of `runSimulation` carries the fixed texts `5.8%` and `2.4 cycles`,
which read as 5.8 and 2.4, and both functions show these texts. -/
theorem sampleResults_amat_fixed (rng : Nat → ℚ) (n : Nat) (a : App) (r : Results)
    (e : JSError) :
    (updateResults (Body.object r) a).1.shown.amatValue = r.amat ∧
    (updateResults (Body.object r) a).1.shown.missRateValue = r.missRate ∧
    (sampleResults rng n).missRate = "5.8%" ∧ (sampleResults rng n).amat = "2.4 cycles" ∧
    parseFloat (sampleResults rng n).missRate.data = JSFloat.finite (29 / 5) ∧
    parseFloat (sampleResults rng n).amat.data = JSFloat.finite (12 / 5) ∧
    (loadSampleData rng a).1.shown.amatValue = "2.4 cycles" ∧
    (loadSampleData rng a).1.shown.missRateValue = "5.8%" ∧
    (catchBlock rng e a).1.shown.amatValue = "2.4 cycles" ∧
    (catchBlock rng e a).1.shown.missRateValue = "5.8%" := by
  refine ⟨?_, ?_, rfl, rfl, parseFloat_sample_missRate, parseFloat_sample_amat, ?_, ?_, ?_, ?_⟩
  · obtain ⟨cfg, form, ⟨perf, pie, miss⟩, shown, sp, op, dis, lab, drawn, log⟩ := a
    obtain ⟨hr, mr, am, mt, hc, mc, ac, tc, timeline, mcl⟩ := r
    cases perf <;> cases pie <;> cases timeline <;> simp [updateResults, updateCharts]
  · obtain ⟨cfg, form, ⟨perf, pie, miss⟩, shown, sp, op, dis, lab, drawn, log⟩ := a
    obtain ⟨hr, mr, am, mt, hc, mc, ac, tc, timeline, mcl⟩ := r
    cases perf <;> cases pie <;> cases timeline <;> simp [updateResults, updateCharts]
  · obtain ⟨b, hb, _, h1, _⟩ := updateResults_sample rng a.drawn { a with drawn := a.drawn + 43 }
    simp only [loadSampleData, hb, h1]
  · obtain ⟨b, hb, _, _, h2⟩ := updateResults_sample rng a.drawn { a with drawn := a.drawn + 43 }
    simp only [loadSampleData, hb, h2]
  · obtain ⟨b, hb, _, h1, _⟩ := updateResults_sample rng a.drawn
      { showToast ("Simulation failed: " ++ e.message) "error" a with drawn := a.drawn + 43 }
    have hd : (showToast ("Simulation failed: " ++ e.message) "error" a).drawn = a.drawn := rfl
    simp only [catchBlock]
    rw [hd, hb]
    exact h1
  · obtain ⟨b, hb, _, _, h2⟩ := updateResults_sample rng a.drawn
      { showToast ("Simulation failed: " ++ e.message) "error" a with drawn := a.drawn + 43 }
    have hd : (showToast ("Simulation failed: " ++ e.message) "error" a).drawn = a.drawn := rfl
    simp only [catchBlock]
    rw [hd, hb]
    exact h2

/-! ## The timeline -/

theorem timelineLoop_eq (rng : Nat → ℚ) (n : Nat) : ∀ (k i : Nat) (data : List Sample),
    timelineLoop rng n k i data = data ++ (List.range k).map (fun j =>
      Sample.mk ((i + j) * 100) (roundDouble (90 + roundDouble (rng (n + 2 * (i + j)) * 8)))
        (roundDouble (10 - roundDouble (rng (n + 2 * (i + j) + 1) * 8)))) := by
  intro k
  induction k with
  | zero => intro i data; simp [timelineLoop]
  | succ k ih =>
    intro i data
    rw [timelineLoop, ih, List.range_succ_eq_map]
    simp only [List.map_cons, List.map_map, List.append_assoc, List.singleton_append,
      Nat.add_zero]
    congr 2
    apply List.map_congr_left
    intro j _
    simp only [Function.comp, Nat.succ_eq_add_one]
    have : i + 1 + j = i + (j + 1) := by omega
    rw [this]

theorem generateTimelineData_eq (rng : Nat → ℚ) (n : Nat) :
    generateTimelineData rng n = (List.range 20).map (fun i =>
      Sample.mk (i * 100) (roundDouble (90 + roundDouble (rng (n + 2 * i) * 8)))
        (roundDouble (10 - roundDouble (rng (n + 2 * i + 1) * 8)))) := by
  simp [generateTimelineData, timelineLoop_eq]

/-- C8 (the code at the failing input): with draws alternating between 0 and 1/2, all in
`[0, 1)`, the first sample of the timeline has hit rate 90 and miss rate 6, which add up to
96 and not to 100: the two rates of one sample come from two separate draws. -/
theorem generateTimelineData_not_complementary :
    (∀ k, 0 ≤ alternatingDraws k ∧ alternatingDraws k < 1) ∧
    (generateTimelineData alternatingDraws 0).head? = some (Sample.mk 0 90 6) ∧
    (90 : ℚ) + 6 ≠ 100 := by
  refine ⟨?_, ?_, by norm_num⟩
  · intro k
    unfold alternatingDraws
    split <;> norm_num
  · have h90 : roundDouble 90 = 90 := roundDouble_ofNat 90 _ (by norm_num) (by norm_num)
    have h4 : roundDouble (2⁻¹ * 8) = 4 := roundDouble_ofNat 4 _ (by norm_num) (by norm_num)
    have h6 : roundDouble (10 - 4) = 6 := roundDouble_ofNat 6 _ (by norm_num) (by norm_num)
    rw [generateTimelineData_eq]
    simp [List.range_succ_eq_map, alternatingDraws, roundDouble_zero, h90, h4, h6]

/-- C9: for every outcome of the random source, `generateTimelineData` returns exactly 20
samples, the `i`-th with `time = 100 * i` for `i = 0..19`; the times increase strictly, from
0 to 1900. -/
theorem generateTimelineData_times (rng : Nat → ℚ) (n : Nat) :
    (generateTimelineData rng n).length = 20 ∧
    (generateTimelineData rng n).map Sample.time = (List.range 20).map (fun i => 100 * i) ∧
    List.Pairwise (fun s t => s < t) ((generateTimelineData rng n).map Sample.time) ∧
    ((generateTimelineData rng n).map Sample.time).head? = some 0 ∧
    ((generateTimelineData rng n).map Sample.time).getLast? = some 1900 := by
  have h : (generateTimelineData rng n).map Sample.time =
      (List.range 20).map (fun i => 100 * i) := by
    rw [generateTimelineData_eq, List.map_map]
    apply List.map_congr_left
    intro i _
    simp [Function.comp, Nat.mul_comm]
  refine ⟨?_, h, ?_, ?_, ?_⟩
  · simp [generateTimelineData_eq]
  · rw [h]; decide
  · rw [h]; decide
  · rw [h]; decide

/-! ## The default configuration -/

/-- C10: the default configuration, both the initial `currentConfig` and the one installed
by `resetConfiguration` from any state, has cacheSize 16384, blockSize 32 and associativity
2, and satisfies the configuration invariant with `numSets = 256`: blockSize and numSets are
powers of two and `cacheSize = blockSize * associativity * numSets`. -/
theorem default_config_invariant (a : App) :
    initialConfig.cacheSize = JSNum.int 16384 ∧ initialConfig.blockSize = JSNum.int 32 ∧
    initialConfig.associativity = JSNum.int 2 ∧
    (resetConfiguration a).currentConfig = initialConfig ∧
    ConfigInvariant initialConfig 256 ∧
    ConfigInvariant (resetConfiguration a).currentConfig 256 := by
  have hinv : ConfigInvariant initialConfig 256 :=
    ⟨16384, 32, 2, rfl, rfl, rfl, by decide, ⟨8, by decide⟩, ⟨5, by decide⟩⟩
  exact ⟨rfl, rfl, rfl, rfl, hinv, hinv⟩

/-! ## Set, tag and block of an address -/

theorem log2_edge (n : Nat) (h1 : 2 ^ 53 ≤ n) (h2 : n < 2 ^ 54) : Nat.log2 n = 53 := by
  have hn : n ≠ 0 := by
    intro h
    subst h
    simp at h1
  have h := (Nat.log2_lt hn (k := 54)).mpr h2
  have h3 := (Nat.le_log2 hn (k := 53)).mpr h1
  omega

theorem small_lt_overflow : (9007199254741024 : Nat) < 2 ^ 1024 :=
  Nat.lt_of_lt_of_le (by norm_num : (9007199254741024 : Nat) < 2 ^ 54)
    (Nat.pow_le_pow_right (by decide) (by decide))

theorem roundToDouble_edge : roundToDouble 9007199254741023 = some 9007199254741024 := by
  have hm : (if 2 ^ (53 - 52 - 1) < 9007199254741023 % 2 ^ (53 - 52) ∨
      9007199254741023 % 2 ^ (53 - 52) = 2 ^ (53 - 52 - 1) ∧
        9007199254741023 / 2 ^ (53 - 52) % 2 = 1
      then (9007199254741023 / 2 ^ (53 - 52) + 1) * 2 ^ (53 - 52)
      else 9007199254741023 / 2 ^ (53 - 52) * 2 ^ (53 - 52)) = 9007199254741024 := by
    rw [if_pos (by norm_num)]
    norm_num
  unfold roundToDouble
  rw [log2_edge _ (by norm_num) (by norm_num), if_neg (by norm_num)]
  simp only []
  rw [hm, if_pos small_lt_overflow]

theorem roundToDouble_nextBlock : roundToDouble 9007199254741024 = some 9007199254741024 := by
  have hm : (if 2 ^ (53 - 52 - 1) < 9007199254741024 % 2 ^ (53 - 52) ∨
      9007199254741024 % 2 ^ (53 - 52) = 2 ^ (53 - 52 - 1) ∧
        9007199254741024 / 2 ^ (53 - 52) % 2 = 1
      then (9007199254741024 / 2 ^ (53 - 52) + 1) * 2 ^ (53 - 52)
      else 9007199254741024 / 2 ^ (53 - 52) * 2 ^ (53 - 52)) = 9007199254741024 := by
    rw [if_neg (by norm_num)]
    norm_num
  unfold roundToDouble
  rw [log2_edge _ (by norm_num) (by norm_num), if_neg (by norm_num)]
  simp only []
  rw [hm, if_pos small_lt_overflow]

theorem parseInt_edgeAddress : parseInt edgeAddress 16 = JSNum.int 9007199254741024 := by
  rw [parseInt_hexString _ (by decide)]
  have hv : hexValue edgeAddress = 9007199254741023 := by decide
  rw [hv, toNumber, roundToDouble_edge]
  rfl

theorem parseInt_nextBlockAddress :
    parseInt nextBlockAddress 16 = JSNum.int 9007199254741024 := by
  rw [parseInt_hexString _ (by decide)]
  have hv : hexValue nextBlockAddress = 9007199254741024 := by decide
  rw [hv, toNumber, roundToDouble_nextBlock]
  rfl

/-- C11 (counterexample): the address `2^53 + 31`, written `2000000000001f`, is read by
`parseInt` as `2^53 + 32`; `lookupAddress` shows set 1 and tag `0x200000000000` for it, so
`8 * tag + set = 2^48 + 1` while `floor(a / 32) = 2^48`; and the address `2^53 + 32` of the
next block receives the same set and tag. -/
theorem lookupAddress_block_relation_fails :
    IsHexString edgeAddress ∧ hexValue edgeAddress = 2 ^ 53 + 31 ∧
    lookupSet edgeAddress = JSNum.int 1 ∧
    lookupTag edgeAddress = '0' :: 'x' :: toHex (2 ^ 45) ∧
    hexValue edgeAddress / 32 ≠ 8 * 2 ^ 45 + 1 ∧
    IsHexString nextBlockAddress ∧ hexValue nextBlockAddress = 2 ^ 53 + 32 ∧
    lookupSet nextBlockAddress = lookupSet edgeAddress ∧
    lookupTag nextBlockAddress = lookupTag edgeAddress ∧
    hexValue nextBlockAddress / 32 ≠ hexValue edgeAddress / 32 := by
  have hs : lookupSet edgeAddress = JSNum.int 1 := by
    rw [lookupSet, parseInt_edgeAddress]
    decide
  have ht : lookupTag edgeAddress = '0' :: 'x' :: toHex (2 ^ 45) := by
    rw [lookupTag, parseInt_edgeAddress]
    decide
  have hs2 : lookupSet nextBlockAddress = JSNum.int 1 := by
    rw [lookupSet, parseInt_nextBlockAddress]
    decide
  have ht2 : lookupTag nextBlockAddress = '0' :: 'x' :: toHex (2 ^ 45) := by
    rw [lookupTag, parseInt_nextBlockAddress]
    decide
  refine ⟨by decide, by decide, hs, ht, by decide, by decide, by decide, ?_, ?_, by decide⟩
  · rw [hs, hs2]
  · rw [ht, ht2]

theorem toHex_injective (m n : Nat) (h : toHex m = toHex n) : m = n := by
  have := congrArg hexValue h
  simpa [toHex_value] using this

theorem initializeCacheVisualizer_row (rng : Nat → ℚ) (set : Nat) (h : set < 8) :
    ∃ l ∈ initializeCacheVisualizer rng, l.set = set := by
  refine ⟨initialLine rng set 0, ?_, rfl⟩
  simp only [initializeCacheVisualizer, List.mem_flatMap, List.mem_map, List.mem_range]
  exact ⟨set, h, 0, by decide, rfl⟩

/-- C11 (amended): for hexadecimal numerals denoting addresses `a, b < 2^53`, the set that
`lookupAddress` shows for `a` is a number in `0..7`, so one of the 8 rows built by
`initializeCacheVisualizer`, and with the tag shown it satisfies
`floor(a / 32) = 8 * tag + set`; and `a` and `b` are shown the same set and tag if and only
if they lie in the same 32-byte block. -/
theorem lookupAddress_block (p q : Page) (rng : Nat → ℚ)
    (hp : IsHexString p.addressInput) (hq : IsHexString q.addressInput)
    (hpv : hexValue p.addressInput < 2 ^ 53) (hqv : hexValue q.addressInput < 2 ^ 53) :
    (∃ set tag found,
      (lookupAddress p).lookupText =
        LookupText.mapsTo (JSNum.int (set : Nat)) ('0' :: 'x' :: toHex tag) found ∧
      set ≤ 7 ∧ (∃ l ∈ initializeCacheVisualizer rng, l.set = set) ∧
      hexValue p.addressInput / 32 = 8 * tag + set) ∧
    ((∃ set tag found other,
        (lookupAddress p).lookupText = LookupText.mapsTo set tag found ∧
        (lookupAddress q).lookupText = LookupText.mapsTo set tag other) ↔
      hexValue p.addressInput / 32 = hexValue q.addressInput / 32) := by
  have hpt := lookupAddress_text p hp.1
  have hqt := lookupAddress_text q hq.1
  rw [lookupSet_hexString _ hp hpv, lookupTag_hexString _ hp hpv] at hpt
  rw [lookupSet_hexString _ hq hqv, lookupTag_hexString _ hq hqv] at hqt
  constructor
  · refine ⟨_, _, _, hpt, ?_, initializeCacheVisualizer_row rng _ ?_, ?_⟩ <;> omega
  · rw [hpt, hqt]
    constructor
    · rintro ⟨set, tag, found, other, h1, h2⟩
      injection h1 with hs1 ht1 _
      injection h2 with hs2 ht2 _
      have hs : ((hexValue p.addressInput / 32 % 8 : Nat) : Int) =
          ((hexValue q.addressInput / 32 % 8 : Nat) : Int) := by
        have := hs1.trans hs2.symm
        injection this
      have ht : toHex (hexValue p.addressInput / (32 * 8)) =
          toHex (hexValue q.addressInput / (32 * 8)) := by
        have := ht1.trans ht2.symm
        injection this with _ h3
        injection h3
      have ht3 := toHex_injective _ _ ht
      omega
    · intro h
      have h1 : hexValue p.addressInput / 32 % 8 = hexValue q.addressInput / 32 % 8 := by
        rw [h]
      have h2 : hexValue p.addressInput / (32 * 8) = hexValue q.addressInput / (32 * 8) := by
        omega
      rw [h1, h2]
      exact ⟨_, _, _, _, rfl, rfl⟩

theorem lookupAddress_block_witness :
    (∃ set tag found,
      (lookupAddress (Page.mk ['1', 'f', '4', '2', '0'] [] "none" ""
        (LookupText.other ""))).lookupText =
        LookupText.mapsTo (JSNum.int (set : Nat)) ('0' :: 'x' :: toHex tag) found ∧
      set ≤ 7 ∧ (∃ l ∈ initializeCacheVisualizer stuckDraws, l.set = set) ∧
      hexValue (Page.mk ['1', 'f', '4', '2', '0'] [] "none" ""
        (LookupText.other "")).addressInput / 32 = 8 * tag + set) ∧
    ((∃ set tag found other,
        (lookupAddress (Page.mk ['1', 'f', '4', '2', '0'] [] "none" ""
          (LookupText.other ""))).lookupText = LookupText.mapsTo set tag found ∧
        (lookupAddress (Page.mk ['1', 'f', '4', '3', 'f'] [] "none" ""
          (LookupText.other ""))).lookupText = LookupText.mapsTo set tag other) ↔
      hexValue (Page.mk ['1', 'f', '4', '2', '0'] [] "none" ""
        (LookupText.other "")).addressInput / 32 =
      hexValue (Page.mk ['1', 'f', '4', '3', 'f'] [] "none" ""
        (LookupText.other "")).addressInput / 32) :=
  lookupAddress_block (Page.mk ['1', 'f', '4', '2', '0'] [] "none" "" (LookupText.other ""))
    (Page.mk ['1', 'f', '4', '3', 'f'] [] "none" "" (LookupText.other "")) stuckDraws
    (by decide) (by decide) (by decide) (by decide)

/-! ## Resetting the configuration -/

/-- C12: for every prior state, after `resetConfiguration` the value of `currentConfig` is
the initial default configuration, field by field (cacheSize 16384, blockSize 32,
associativity 2, writePolicy `WRITE_BACK`, replacementPolicy `LRU`, benchmark
`matrix_multiplication`, enableAdaptive false, matrixSize 32); a second reset leaves
`currentConfig` as the first one did. -/
theorem resetConfiguration_restores_defaults (a : App) :
    (resetConfiguration a).currentConfig = initialConfig ∧
    (resetConfiguration a).currentConfig.cacheSize = JSNum.int 16384 ∧
    (resetConfiguration a).currentConfig.blockSize = JSNum.int 32 ∧
    (resetConfiguration a).currentConfig.associativity = JSNum.int 2 ∧
    (resetConfiguration a).currentConfig.writePolicy = "WRITE_BACK" ∧
    (resetConfiguration a).currentConfig.replacementPolicy = "LRU" ∧
    (resetConfiguration a).currentConfig.benchmark = "matrix_multiplication" ∧
    (resetConfiguration a).currentConfig.enableAdaptive = false ∧
    (resetConfiguration a).currentConfig.matrixSize = JSNum.int 32 ∧
    (resetConfiguration (resetConfiguration a)).currentConfig =
      (resetConfiguration a).currentConfig :=
  ⟨rfl, rfl, rfl, rfl, rfl, rfl, rfl, rfl, rfl, rfl⟩

/-! ## The controls after a run -/

/-- C13: for every outcome of the request (success, a response that is not ok, a rejected
`fetch`, a body that cannot be read, or an exception while the results are displayed), when
`runSimulation` completes the run button is enabled again and labelled `Run Simulation`, the
loading spinner is hidden and the opacity of the results dashboard is `1`. -/
theorem runSimulation_restores_controls (net : FetchOutcome) (rng : Nat → ℚ) (a : App) :
    (runSimulation net rng a).1.runDisabled = false ∧
    (runSimulation net rng a).1.runLabel = "<i class=\"fas fa-play me-2\"></i>Run Simulation" ∧
    (runSimulation net rng a).1.spinnerDisplay = "none" ∧
    (runSimulation net rng a).1.dashboardOpacity = "1" := by
  unfold runSimulation
  simp only []
  split
  · exact ⟨rfl, rfl, rfl, rfl⟩
  · exact ⟨rfl, rfl, rfl, rfl⟩
end CacheSim
